import Mathlib

/-!
Shallow embedding of the device capability provider core of the
sriov-network-device-plugin repository:
  * `pkg/netdevice/vdpa.go` — the vDPA adapter (`vdpaInfoProvider`), its
    health validation, the type-resolution table and the device factory;
  * the vhost-net static adapter file (`infoprovider` package) — the
    `vhostNetInfoProvider` with its two fixed host device paths.

Go slices are modelled as `Option (List α)`: `none` is the nil slice and
`some xs` a non-nil slice holding `xs`.  Fallible external collaborators
are modelled with `Except`.  The host filesystem state the static adapter
reads (`os.Stat` on two fixed paths) is an explicit record parameter.
-/

namespace SriovDP

/-- A Go slice value: `none` models the nil slice, `some xs` a non-nil
slice with elements `xs`.  Go's `len` treats nil as length 0. -/
abbrev GoSlice (α : Type) := Option (List α)

/-- Go's `len` on a possibly-nil slice: `len(nil) = 0`. -/
def goLen {α : Type} (s : GoSlice α) : Nat := (s.getD []).length

/-- The `pluginapi.DeviceSpec` value object: host path, container path and
permission string, as used by both adapters. -/
structure DeviceSpec where
  HostPath : String
  ContainerPath : String
  Permissions : String
deriving DecidableEq, Repr

/-- The `pluginapi.Mount` value object: host path, container path and the
read-only flag.  Neither adapter ever produces a non-empty mount list. -/
structure Mount where
  HostPath : String
  ContainerPath : String
  ReadOnly : Bool
deriving DecidableEq, Repr

/-- Modelled from the spec: the logical device type (`types.VdpaType` of the
repository's `pkg/types`, not included under src/) is a string-valued
enumerated tag with a virtio-style value, a vhost-style value and an
invalid sentinel, all pairwise distinct. -/
abbrev VdpaType := String

/-- Modelled from the spec: the virtio-style logical type tag
(`types.VdpaVirtioType`). -/
def VdpaVirtioType : VdpaType := "virtio"

/-- Modelled from the spec: the vhost-style logical type tag
(`types.VdpaVhostType`). -/
def VdpaVhostType : VdpaType := "vhost"

/-- Modelled from the spec: the invalid/unrecognized sentinel type tag
(`types.VdpaInvalidType`). -/
def VdpaInvalidType : VdpaType := "invalid"

/-- Modelled from the spec: the kernel bus driver identifier implementing
the virtio-style type (`vdpa.VirtioVdpaDriver` of the external govdpa
collaborator); distinct from the vhost driver identifier. -/
def VirtioVdpaDriver : String := "virtio_vdpa"

/-- Modelled from the spec: the kernel bus driver identifier implementing
the vhost-style type (`vdpa.VhostVdpaDriver` of the external govdpa
collaborator). -/
def VhostVdpaDriver : String := "vhost_vdpa"

/-- The type-resolution table `supportedVdpaTypes` of vdpa.go: the fixed
mapping from logical vDPA type to vdpa bus driver.  The Go map has
exactly these two entries; it is modelled as an association list (the
driver values are distinct, so the randomized Go map iteration order in
`GetType` cannot be observed). -/
def supportedVdpaTypes : List (VdpaType × String) :=
  [(VdpaVirtioType, VirtioVdpaDriver), (VdpaVhostType, VhostVdpaDriver)]

/-- The Go map key lookup `supportedVdpaTypes[t]`: `some driver` when `t`
is a key of the table, `none` otherwise (the `ok` boolean of the Go
two-value lookup is `isSome` of this result). -/
def supportedVdpaTypesLookup (t : VdpaType) : Option String :=
  (supportedVdpaTypes.find? (fun p => p.1 == t)).map Prod.snd

/-- The vDPA device handle wrapped by `vdpaDevice` in vdpa.go: the external
govdpa collaborator exposes its currently bound bus driver and its
filesystem path. -/
structure VdpaDevice where
  driver : String
  path : String
deriving DecidableEq, Repr

/-- The handle's driver query (`GetDriver` of the govdpa device). -/
def VdpaDevice.GetDriver (v : VdpaDevice) : String := v.driver

/-- The handle's filesystem path query (`GetPath` of the govdpa device). -/
def VdpaDevice.GetPath (v : VdpaDevice) : String := v.path

/-- `vdpaDevice.GetType` of vdpa.go: scans `supportedVdpaTypes` for an
entry whose driver equals the device's current driver and returns that
entry's type; returns `VdpaInvalidType` when no entry matches. -/
def VdpaDevice.GetType (v : VdpaDevice) : VdpaType :=
  match supportedVdpaTypes.find? (fun p => p.2 == v.GetDriver) with
  | some p => p.1
  | none => VdpaInvalidType

/-- `GetVdpaDevice` of vdpa.go: asks the external per-PCI-address lookup
(`GetVdpaDeviceByPci` of the vdpa provider collaborator, passed here as a
function) for the device; on error it logs and returns the nil handle
(`none`), otherwise it wraps and returns the device. -/
def GetVdpaDevice (getVdpaDeviceByPci : String → Except String VdpaDevice)
    (pciAddr : String) : Option VdpaDevice :=
  match getVdpaDeviceByPci pciAddr with
  | Except.error _ => none
  | Except.ok d => some d

/-- The `vdpaInfoProvider` struct of vdpa.go: a possibly-nil borrowed device
handle and the configured expected vDPA type. -/
structure vdpaInfoProvider where
  dev : Option VdpaDevice
  vdpaType : VdpaType
deriving DecidableEq, Repr

/-- `NewVdpaInfoProvider` of vdpa.go. -/
def NewVdpaInfoProvider (vdpaType : VdpaType) (vdpaDev : Option VdpaDevice) :
    vdpaInfoProvider :=
  { dev := vdpaDev, vdpaType := vdpaType }

/-- `vdpaInfoProvider.isHealthy` of vdpa.go, returning the Go pair
`(bool, error)` with the error modelled as `Option String`.  The four
checks appear in source order: nil handle, configured type not a table
key, driver resolving to the invalid type, resolved type differing from
the configured type. -/
def vdpaInfoProvider.isHealthy (vip : vdpaInfoProvider) : Bool × Option String :=
  match vip.dev with
  | none => (false, some "no vDPA device found")
  | some dev =>
    if (supportedVdpaTypesLookup vip.vdpaType).isNone then
      (false, some ("vdpaType not supported " ++ vip.vdpaType))
    else
      let vType := dev.GetType
      if vType == VdpaInvalidType then
        (false, some "device does not have a valid vdpa types")
      else if vType != vip.vdpaType then
        (false, some ("wrong vdpa type. Config expects " ++ vip.vdpaType ++
          " but device is " ++ vType))
      else
        (true, none)

/-- `vdpaInfoProvider.GetDeviceSpecs` of vdpa.go: nil on failed health
validation; otherwise an empty non-nil slice, extended with the single
device-path spec (permissions "mrw") exactly when the configured type is
the vhost type.  The inner `none` branch mirrors the Go nil-interface
panic site, unreachable because health validation rules out a nil
handle. -/
def vdpaInfoProvider.GetDeviceSpecs (vip : vdpaInfoProvider) : GoSlice DeviceSpec :=
  if !(vip.isHealthy).1 then
    none
  else
    let devSpecs : List DeviceSpec := []
    if vip.vdpaType == VdpaVhostType then
      match vip.dev with
      | some dev =>
        some (devSpecs ++
          [{ HostPath := dev.GetPath
             ContainerPath := dev.GetPath
             Permissions := "mrw" }])
      | none => none
    else
      some devSpecs

/-- `vdpaInfoProvider.GetEnvVal` of vdpa.go: always the empty string. -/
def vdpaInfoProvider.GetEnvVal (_vip : vdpaInfoProvider) : String := ""

/-- `vdpaInfoProvider.GetMounts` of vdpa.go: always a fresh empty non-nil
slice. -/
def vdpaInfoProvider.GetMounts (_vip : vdpaInfoProvider) : GoSlice Mount := some []

/-- The host filesystem facts the static adapter reads: existence of the
two fixed character device paths. -/
structure HostFS where
  vhostNetExists : Bool
  tunExists : Bool
deriving DecidableEq, Repr

/-- `VhostNetDeviceExist` of the infoprovider file: whether the fixed path
/dev/vhost-net exists on the host. -/
def VhostNetDeviceExist (fs : HostFS) : Bool := fs.vhostNetExists

/-- `tunDeviceExist` of the infoprovider file: whether the fixed path
/dev/net/tun exists on the host. -/
def tunDeviceExist (fs : HostFS) : Bool := fs.tunExists

/-- `getVhostNetDeviceSpec` of the infoprovider file: the one-element spec
list for /dev/vhost-net, permissions "mrw". -/
def getVhostNetDeviceSpec : List DeviceSpec :=
  [{ HostPath := "/dev/vhost-net", ContainerPath := "/dev/vhost-net",
     Permissions := "mrw" }]

/-- `getTunDeviceSpec` of the infoprovider file: the one-element spec list
for /dev/net/tun, permissions "mrw". -/
def getTunDeviceSpec : List DeviceSpec :=
  [{ HostPath := "/dev/net/tun", ContainerPath := "/dev/net/tun",
     Permissions := "mrw" }]

/-- `vhostNetInfoProvider.GetDeviceSpecs` of the infoprovider file: nil if
/dev/vhost-net is absent; otherwise nil if /dev/net/tun is absent;
otherwise the vhost-net spec followed by the tun spec.  The provider
struct has no fields, so the method takes only the host state. -/
def vhostNetInfoProvider.GetDeviceSpecs (fs : HostFS) : GoSlice DeviceSpec :=
  if !(VhostNetDeviceExist fs) then
    none
  else
    let deviceSpec := getVhostNetDeviceSpec
    if !(tunDeviceExist fs) then
      none
    else
      some (deviceSpec ++ getTunDeviceSpec)

/-- `vhostNetInfoProvider.GetEnvVal` of the infoprovider file: always the
empty string. -/
def vhostNetInfoProvider.GetEnvVal : String := ""

/-- `vhostNetInfoProvider.GetMounts` of the infoprovider file: returns the
nil slice (which Go treats as an empty sequence). -/
def vhostNetInfoProvider.GetMounts : GoSlice Mount := none

/-! Helper lemmas characterizing `isHealthy`, shared by several claim
theorems below. -/

theorem isHealthy_of_dev_none (vip : vdpaInfoProvider) (h : vip.dev = none) :
    vip.isHealthy = (false, some "no vDPA device found") := by
  simp [vdpaInfoProvider.isHealthy, h]

theorem isHealthy_of_unsupported (vip : vdpaInfoProvider) (d : VdpaDevice)
    (hd : vip.dev = some d)
    (hlk : supportedVdpaTypesLookup vip.vdpaType = none) :
    vip.isHealthy = (false, some ("vdpaType not supported " ++ vip.vdpaType)) := by
  simp [vdpaInfoProvider.isHealthy, hd, hlk]

theorem isHealthy_of_invalid_type (vip : vdpaInfoProvider) (d : VdpaDevice)
    (hd : vip.dev = some d)
    (hlk : (supportedVdpaTypesLookup vip.vdpaType).isSome = true)
    (hty : d.GetType = VdpaInvalidType) :
    vip.isHealthy = (false, some "device does not have a valid vdpa types") := by
  rcases Option.isSome_iff_exists.1 hlk with ⟨s, hs⟩
  simp [vdpaInfoProvider.isHealthy, hd, hs, hty]

theorem isHealthy_of_mismatch (vip : vdpaInfoProvider) (d : VdpaDevice)
    (hd : vip.dev = some d)
    (hlk : (supportedVdpaTypesLookup vip.vdpaType).isSome = true)
    (hinv : d.GetType ≠ VdpaInvalidType)
    (hty : d.GetType ≠ vip.vdpaType) :
    vip.isHealthy = (false, some ("wrong vdpa type. Config expects " ++
      vip.vdpaType ++ " but device is " ++ d.GetType)) := by
  rcases Option.isSome_iff_exists.1 hlk with ⟨s, hs⟩
  simp [vdpaInfoProvider.isHealthy, hd, hs, hinv, hty]

theorem isHealthy_of_ok (vip : vdpaInfoProvider) (d : VdpaDevice)
    (hd : vip.dev = some d)
    (hlk : (supportedVdpaTypesLookup vip.vdpaType).isSome = true)
    (hinv : d.GetType ≠ VdpaInvalidType)
    (hty : d.GetType = vip.vdpaType) :
    vip.isHealthy = (true, none) := by
  rcases Option.isSome_iff_exists.1 hlk with ⟨s, hs⟩
  have hinv2 : vip.vdpaType ≠ VdpaInvalidType := hty ▸ hinv
  simp [vdpaInfoProvider.isHealthy, hd, hs, hinv, hty, hinv2]

theorem isHealthy_fst_true_iff (vip : vdpaInfoProvider) :
    (vip.isHealthy).1 = true ↔
      ∃ d, vip.dev = some d ∧ (supportedVdpaTypesLookup vip.vdpaType).isSome = true ∧
        d.GetType ≠ VdpaInvalidType ∧ d.GetType = vip.vdpaType := by
  rcases hdev : vip.dev with _ | d
  · simp [isHealthy_of_dev_none vip hdev]
  · rcases hlk : supportedVdpaTypesLookup vip.vdpaType with _ | s
    · simp [isHealthy_of_unsupported vip d hdev hlk, hdev, hlk]
    · have hlk2 : (supportedVdpaTypesLookup vip.vdpaType).isSome = true := by
        simp [hlk]
      by_cases hinv : d.GetType = VdpaInvalidType
      · simp [isHealthy_of_invalid_type vip d hdev hlk2 hinv, hdev, hinv]
      · by_cases hty : d.GetType = vip.vdpaType
        · have hinv2 : vip.vdpaType ≠ VdpaInvalidType := hty ▸ hinv
          simp [isHealthy_of_ok vip d hdev hlk2 hinv hty, hdev, hlk2, hinv, hty,
            hinv2]
        · simp [isHealthy_of_mismatch vip d hdev hlk2 hinv hty, hdev, hinv, hty]

theorem isHealthy_dev_isSome_of_true (vip : vdpaInfoProvider)
    (h : (vip.isHealthy).1 = true) : ∃ d, vip.dev = some d := by
  rcases (isHealthy_fst_true_iff vip).1 h with ⟨d, hd, _, _, _⟩
  exact ⟨d, hd⟩

/-- C1: in every vDPA adapter state where health validation fails,
`GetDeviceSpecs` returns nil and advertises no device node, and the static
adapter returns nil whenever either of its fixed host paths fails its
existence check — a DeviceSpec is only produced after validation
succeeds. -/
theorem claim1_no_advertise_without_validation (vip : vdpaInfoProvider)
    (fs : HostFS) (h1 : (vip.isHealthy).1 = false)
    (h2 : VhostNetDeviceExist fs = false ∨ tunDeviceExist fs = false) :
    vip.GetDeviceSpecs = none ∧ vhostNetInfoProvider.GetDeviceSpecs fs = none := by
  constructor
  · simp [vdpaInfoProvider.GetDeviceSpecs, h1]
  · rcases h2 with h | h
    · simp [vhostNetInfoProvider.GetDeviceSpecs, h]
    · cases hv : VhostNetDeviceExist fs <;>
        simp [vhostNetInfoProvider.GetDeviceSpecs, h, hv]

/-- Witness for C1: with no bound device and /dev/vhost-net absent, both
adapters advertise nothing. -/
theorem claim1_witness :
    (NewVdpaInfoProvider VdpaVhostType none).GetDeviceSpecs = none ∧
    vhostNetInfoProvider.GetDeviceSpecs ⟨false, true⟩ = none :=
  claim1_no_advertise_without_validation (NewVdpaInfoProvider VdpaVhostType none)
    ⟨false, true⟩ (by decide) (Or.inl (by decide))

/-- C2: vDPA health validation applies exactly four checks in source order
and reports the condition of the first failing one — nil handle ("no vDPA
device found"), configured type not a key of the resolution table
("vdpaType not supported"), driver resolving to the invalid sentinel
("device does not have a valid vdpa types"), resolved type differing from
the configured type (a mismatch diagnostic naming both types) — and the
device is healthy iff all four checks pass. -/
theorem claim2_isHealthy_check_order (vip : vdpaInfoProvider) :
    (vip.dev = none → vip.isHealthy = (false, some "no vDPA device found")) ∧
    (∀ d, vip.dev = some d →
      supportedVdpaTypesLookup vip.vdpaType = none →
      vip.isHealthy = (false, some ("vdpaType not supported " ++ vip.vdpaType))) ∧
    (∀ d, vip.dev = some d →
      (supportedVdpaTypesLookup vip.vdpaType).isSome = true →
      d.GetType = VdpaInvalidType →
      vip.isHealthy = (false, some "device does not have a valid vdpa types")) ∧
    (∀ d, vip.dev = some d →
      (supportedVdpaTypesLookup vip.vdpaType).isSome = true →
      d.GetType ≠ VdpaInvalidType → d.GetType ≠ vip.vdpaType →
      vip.isHealthy = (false, some ("wrong vdpa type. Config expects " ++
        vip.vdpaType ++ " but device is " ++ d.GetType))) ∧
    ((vip.isHealthy).1 = true ↔
      ∃ d, vip.dev = some d ∧
        (supportedVdpaTypesLookup vip.vdpaType).isSome = true ∧
        d.GetType ≠ VdpaInvalidType ∧ d.GetType = vip.vdpaType) :=
  ⟨fun h => isHealthy_of_dev_none vip h,
   fun d hd hlk => isHealthy_of_unsupported vip d hd hlk,
   fun d hd hlk hty => isHealthy_of_invalid_type vip d hd hlk hty,
   fun d hd hlk hinv hty => isHealthy_of_mismatch vip d hd hlk hinv hty,
   isHealthy_fst_true_iff vip⟩

/-- Witness for C2: the nil-handle check fires first on a provider with no
device. -/
theorem claim2_witness :
    (NewVdpaInfoProvider VdpaVirtioType none).isHealthy =
      (false, some "no vDPA device found") :=
  (claim2_isHealthy_check_order (NewVdpaInfoProvider VdpaVirtioType none)).1 rfl

/-- C3: when vDPA health validation succeeds, `GetDeviceSpecs` returns
exactly one DeviceSpec (host path = container path = the device's
filesystem path, permissions "mrw") for the vhost-style configured type,
and an empty non-nil slice for the virtio-style configured type. -/
theorem claim3_healthy_specs (vip : vdpaInfoProvider) (d : VdpaDevice)
    (hd : vip.dev = some d) (hh : (vip.isHealthy).1 = true) :
    (vip.vdpaType = VdpaVhostType →
      vip.GetDeviceSpecs = some [⟨d.GetPath, d.GetPath, "mrw"⟩]) ∧
    (vip.vdpaType = VdpaVirtioType → vip.GetDeviceSpecs = some []) := by
  constructor
  · intro hvt
    simp [vdpaInfoProvider.GetDeviceSpecs, hh, hd, hvt]
  · intro hvt
    simp [vdpaInfoProvider.GetDeviceSpecs, hh, hvt, VdpaVirtioType, VdpaVhostType]

/-- Witness for C3: a device bound to the vhost vdpa driver, configured as
vhost type, yields its single device-path spec. -/
theorem claim3_witness :
    (NewVdpaInfoProvider VdpaVhostType
      (some ⟨VhostVdpaDriver, "/dev/vhost-vdpa-0"⟩)).GetDeviceSpecs =
      some [⟨"/dev/vhost-vdpa-0", "/dev/vhost-vdpa-0", "mrw"⟩] :=
  (claim3_healthy_specs
    (NewVdpaInfoProvider VdpaVhostType
      (some ⟨VhostVdpaDriver, "/dev/vhost-vdpa-0"⟩))
    ⟨VhostVdpaDriver, "/dev/vhost-vdpa-0"⟩ rfl (by decide)).1 rfl

/-- C4: when both fixed host paths exist, the static adapter returns
exactly two DeviceSpecs, /dev/vhost-net then /dev/net/tun, each with host
path = container path and permissions "mrw". -/
theorem claim4_static_both_present (fs : HostFS)
    (h1 : VhostNetDeviceExist fs = true) (h2 : tunDeviceExist fs = true) :
    vhostNetInfoProvider.GetDeviceSpecs fs =
      some [⟨"/dev/vhost-net", "/dev/vhost-net", "mrw"⟩,
            ⟨"/dev/net/tun", "/dev/net/tun", "mrw"⟩] := by
  simp [vhostNetInfoProvider.GetDeviceSpecs, h1, h2, getVhostNetDeviceSpec,
    getTunDeviceSpec]

/-- Witness for C4: with both paths present the two specs are returned. -/
theorem claim4_witness :
    vhostNetInfoProvider.GetDeviceSpecs ⟨true, true⟩ =
      some [⟨"/dev/vhost-net", "/dev/vhost-net", "mrw"⟩,
            ⟨"/dev/net/tun", "/dev/net/tun", "mrw"⟩] :=
  claim4_static_both_present ⟨true, true⟩ rfl rfl

/-- C5: the static adapter returns nil with no partial result when either
fixed path is absent: nil whenever /dev/vhost-net is missing (regardless
of /dev/net/tun), and nil when /dev/vhost-net exists but /dev/net/tun is
missing. -/
theorem claim5_static_absent_nil (fs : HostFS) :
    (VhostNetDeviceExist fs = false →
      vhostNetInfoProvider.GetDeviceSpecs fs = none) ∧
    (VhostNetDeviceExist fs = true → tunDeviceExist fs = false →
      vhostNetInfoProvider.GetDeviceSpecs fs = none) := by
  constructor
  · intro h
    simp [vhostNetInfoProvider.GetDeviceSpecs, h]
  · intro h1 h2
    simp [vhostNetInfoProvider.GetDeviceSpecs, h1, h2]

/-- Witness for C5: /dev/vhost-net present but /dev/net/tun absent yields
nil, not a one-element result. -/
theorem claim5_witness : vhostNetInfoProvider.GetDeviceSpecs ⟨true, false⟩ = none :=
  (claim5_static_absent_nil ⟨true, false⟩).2 rfl rfl

/-- C6: for every (type, driver) pair of the resolution table, classifying
a device bound to that driver with `GetType` yields back exactly that
type, and any driver not present in the table classifies to the invalid
sentinel. -/
theorem claim6_type_table_round_trip :
    (∀ p ∈ supportedVdpaTypes, ∀ path : String,
      (VdpaDevice.mk p.2 path).GetType = p.1) ∧
    (∀ drv path : String, (∀ p ∈ supportedVdpaTypes, p.2 ≠ drv) →
      (VdpaDevice.mk drv path).GetType = VdpaInvalidType) := by
  constructor
  · intro p hp path
    simp [supportedVdpaTypes] at hp
    rcases hp with hp | hp <;> subst hp <;> rfl
  · intro drv path h
    have h1 : VirtioVdpaDriver ≠ drv :=
      h (VdpaVirtioType, VirtioVdpaDriver) (by simp [supportedVdpaTypes])
    have h2 : VhostVdpaDriver ≠ drv :=
      h (VdpaVhostType, VhostVdpaDriver) (by simp [supportedVdpaTypes])
    have hb1 : (VirtioVdpaDriver == drv) = false := beq_eq_false_iff_ne.2 h1
    have hb2 : (VhostVdpaDriver == drv) = false := beq_eq_false_iff_ne.2 h2
    simp [VdpaDevice.GetType, VdpaDevice.GetDriver, supportedVdpaTypes,
      List.find?, hb1, hb2]

/-- Witness for C6: the virtio driver classifies to the virtio type, and an
unknown driver classifies to the invalid sentinel. -/
theorem claim6_witness :
    (VdpaDevice.mk VirtioVdpaDriver "/dev/vdpa0").GetType = VdpaVirtioType ∧
    (VdpaDevice.mk "mlx5_core" "/dev/vdpa0").GetType = VdpaInvalidType :=
  ⟨claim6_type_table_round_trip.1 (VdpaVirtioType, VirtioVdpaDriver)
      (by decide) "/dev/vdpa0",
   claim6_type_table_round_trip.2 "mlx5_core" "/dev/vdpa0" (by decide)⟩

/-- C7: for both adapter variants and every state, including unhealthy
ones, `GetEnvVal` returns the empty string and `GetMounts` yields no mount
entry (the vDPA adapter a non-nil empty slice, the static adapter the nil
slice, which has Go length 0). -/
theorem claim7_env_and_mounts_empty :
    vhostNetInfoProvider.GetEnvVal = "" ∧
    goLen vhostNetInfoProvider.GetMounts = 0 ∧
    ∀ vip : vdpaInfoProvider, vip.GetEnvVal = "" ∧ goLen vip.GetMounts = 0 :=
  ⟨rfl, rfl, fun _ => ⟨rfl, rfl⟩⟩

/-- C8: when the external per-PCI-address lookup fails, `GetVdpaDevice`
returns the absent handle instead of propagating the error, and a provider
built over that absent handle fails health validation with the "no device
found" condition. -/
theorem claim8_lookup_failure_absent_handle
    (getVdpaDeviceByPci : String → Except String VdpaDevice)
    (pciAddr err : String) (t : VdpaType)
    (h : getVdpaDeviceByPci pciAddr = Except.error err) :
    GetVdpaDevice getVdpaDeviceByPci pciAddr = none ∧
    (NewVdpaInfoProvider t (GetVdpaDevice getVdpaDeviceByPci pciAddr)).isHealthy =
      (false, some "no vDPA device found") := by
  have h0 : GetVdpaDevice getVdpaDeviceByPci pciAddr = none := by
    simp [GetVdpaDevice, h]
  refine ⟨h0, ?_⟩
  rw [h0]
  exact isHealthy_of_dev_none (NewVdpaInfoProvider t none) rfl

/-- Witness for C8: a lookup that always errors yields an absent handle and
the nil-handle health failure. -/
theorem claim8_witness :
    GetVdpaDevice (fun _ => Except.error "device not found") "0000:65:00.2" = none ∧
    (NewVdpaInfoProvider VdpaVhostType
      (GetVdpaDevice (fun _ => Except.error "device not found")
        "0000:65:00.2")).isHealthy = (false, some "no vDPA device found") :=
  claim8_lookup_failure_absent_handle (fun _ => Except.error "device not found")
    "0000:65:00.2" "device not found" VdpaVhostType rfl

/-- C9: `isHealthy` reports a non-nil error value exactly when it reports
false — the boolean and the error presence never disagree. -/
theorem claim9_error_iff_unhealthy (vip : vdpaInfoProvider) :
    (vip.isHealthy).2 ≠ none ↔ (vip.isHealthy).1 = false := by
  rcases hdev : vip.dev with _ | d
  · simp [isHealthy_of_dev_none vip hdev]
  · rcases hlk : supportedVdpaTypesLookup vip.vdpaType with _ | s
    · simp [isHealthy_of_unsupported vip d hdev hlk]
    · have hlk2 : (supportedVdpaTypesLookup vip.vdpaType).isSome = true := by
        simp [hlk]
      by_cases hinv : d.GetType = VdpaInvalidType
      · simp [isHealthy_of_invalid_type vip d hdev hlk2 hinv]
      · by_cases hty : d.GetType = vip.vdpaType
        · simp [isHealthy_of_ok vip d hdev hlk2 hinv hty]
        · simp [isHealthy_of_mismatch vip d hdev hlk2 hinv hty]

/-- C10: every capability query of both adapters is a pure function of the
adapter's fields and the host state: two providers with equal device
handle and configured type, queried over equal host filesystem facts,
return equal results from `GetDeviceSpecs`, `GetEnvVal` and `GetMounts`
(the operations take the state only as input, mirroring the source, which
assigns to no field). -/
theorem claim10_queries_deterministic (v1 v2 : vdpaInfoProvider)
    (fs1 fs2 : HostFS) (hdev : v1.dev = v2.dev)
    (hty : v1.vdpaType = v2.vdpaType) (hfs : fs1 = fs2) :
    v1.GetDeviceSpecs = v2.GetDeviceSpecs ∧ v1.GetEnvVal = v2.GetEnvVal ∧
    v1.GetMounts = v2.GetMounts ∧
    vhostNetInfoProvider.GetDeviceSpecs fs1 =
      vhostNetInfoProvider.GetDeviceSpecs fs2 := by
  have hv : v1 = v2 := by
    cases v1
    cases v2
    simp_all
  subst hv
  subst hfs
  exact ⟨rfl, rfl, rfl, rfl⟩

/-- Witness for C10: two textually distinct but field-equal providers and
equal host states give equal query results. -/
theorem claim10_witness :
    (NewVdpaInfoProvider VdpaVirtioType none).GetDeviceSpecs =
      (vdpaInfoProvider.mk none VdpaVirtioType).GetDeviceSpecs ∧
    (NewVdpaInfoProvider VdpaVirtioType none).GetEnvVal =
      (vdpaInfoProvider.mk none VdpaVirtioType).GetEnvVal ∧
    (NewVdpaInfoProvider VdpaVirtioType none).GetMounts =
      (vdpaInfoProvider.mk none VdpaVirtioType).GetMounts ∧
    vhostNetInfoProvider.GetDeviceSpecs ⟨true, true⟩ =
      vhostNetInfoProvider.GetDeviceSpecs ⟨true, true⟩ :=
  claim10_queries_deterministic (NewVdpaInfoProvider VdpaVirtioType none)
    (vdpaInfoProvider.mk none VdpaVirtioType) ⟨true, true⟩ ⟨true, true⟩
    rfl rfl rfl

end SriovDP
